import Mathlib

/-
Verification development for the Analysis Execution and Result Normalization
subsystem implemented in src/mcp-server/src/code_maat_wrapper.py.

The Python module is shallowly embedded: pure helpers become Lean functions,
the process-spawning side effects become an explicit executor argument of type
SpawnReq -> ProcResult together with a returned trace of spawned requests, and
raised CodeMaatError exceptions become Except values carrying an error kind
(the kinds follow the failure taxonomy that the raise sites realize: missing
log, unsupported vcs or analysis are validation; non-zero exit is execution;
timeout is timeout; CSV conversion failure is parse; missing engine artifact
is configuration) plus the formatted message of the raise site.

Modelling notes, recorded where the embedding abstracts a library call:
 * Python int(...) and float(...) string conversion are modelled over ASCII
   digits with an optional sign, surrounding whitespace, a fraction and an
   exponent part, and the inf and nan spellings; the underscore digit
   separators and non-ASCII digits that CPython additionally accepts are out
   of scope, as no engine output uses them.
 * Floating-point values are modelled as exact rationals (plus inf and nan
   markers); IEEE rounding is not modelled.
 * csv.DictReader is modelled for unquoted comma-separated output, which is
   the only shape the engine emits: the first row is the header, later
   non-empty rows are zipped with it, short rows are padded with the None
   restval and long rows collect the surplus under the restkey entry.
-/

set_option autoImplicit false

namespace CodeMaat

/-- The whitespace set recognized by Python str.strip and str.isspace
(restricted to the ASCII range that the engine can emit). -/
def pyIsSpace (c : Char) : Bool :=
  c = ' ' || c = '\t' || c = '\n' || c = '\r' || c = '\x0b' || c = '\x0c'

/-- Python str.strip on a character list: drop whitespace from both ends. -/
def pyStripL (cs : List Char) : List Char :=
  ((cs.dropWhile pyIsSpace).reverse.dropWhile pyIsSpace).reverse

/-- Python str.strip. -/
def pyStrip (s : String) : String :=
  ⟨pyStripL s.data⟩

/-- Numeric value of a digit list, most significant first. -/
def digitsToNat (cs : List Char) : Nat :=
  cs.foldl (fun a c => a * 10 + (c.toNat - 48)) 0

/-- True when every character is an ASCII digit (also true of the empty list). -/
def digitsOrEmpty (cs : List Char) : Bool :=
  cs.all Char.isDigit

/-- A non-empty all-digit list, as a natural number. -/
def parseUnsignedDigits (cs : List Char) : Option Nat :=
  if cs ≠ [] ∧ digitsOrEmpty cs then some (digitsToNat cs) else Option.none

/-- Digits with an optional leading sign, as an integer. -/
def parseSignedDigits (cs : List Char) : Option Int :=
  match cs with
  | '+' :: r => (parseUnsignedDigits r).map Int.ofNat
  | '-' :: r => (parseUnsignedDigits r).map (fun n => -(Int.ofNat n))
  | _ => (parseUnsignedDigits cs).map Int.ofNat

/-- Python int(str) conversion on the stripped character list:
an optional sign followed by one or more digits. -/
def pyParseIntL (cs : List Char) : Option Int :=
  parseSignedDigits cs

/-- Python int(str) conversion: int("07") = 7, int(" 7 ") = 7,
int("") and int("3.5") raise (here: Option.none). -/
def pyParseInt (s : String) : Option Int :=
  pyParseIntL (pyStripL s.data)

/-- The value of a Python float, modelled exactly: a rational, an infinity,
or nan. -/
inductive PyFloat where
  | finite (q : Rat)
  | inf (neg : Bool)
  | nan
  deriving DecidableEq, Repr

/-- Powers of ten with an integer exponent, as a rational. -/
def ratPow10 (e : Int) : Rat :=
  if 0 ≤ e then ((10 : Rat) ^ e.toNat) else 1 / ((10 : Rat) ^ (-e).toNat)

/-- The mantissa of a float literal: digits, optionally with one dot,
with at least one digit present. -/
def parseMantissa (cs : List Char) : Option Rat :=
  let ip := cs.takeWhile (fun c => c ≠ '.')
  let rest := cs.dropWhile (fun c => c ≠ '.')
  match rest with
  | [] => (parseUnsignedDigits ip).map (fun n => (n : Rat))
  | '.' :: frac =>
      if digitsOrEmpty ip ∧ digitsOrEmpty frac ∧ (ip ≠ [] ∨ frac ≠ []) then
        some ((digitsToNat ip : Rat) + (digitsToNat frac : Rat) / ((10 : Rat) ^ frac.length))
      else Option.none
  | _ => Option.none

/-- A decimal float literal body: mantissa with an optional exponent part. -/
def parseDecimalCore (cs : List Char) : Option Rat :=
  let mant := cs.takeWhile (fun c => c ≠ 'e' ∧ c ≠ 'E')
  let rest := cs.dropWhile (fun c => c ≠ 'e' ∧ c ≠ 'E')
  match rest with
  | [] => parseMantissa mant
  | _ :: expPart =>
      match parseMantissa mant, parseSignedDigits expPart with
      | some m, some e => some (m * ratPow10 e)
      | _, _ => Option.none

/-- ASCII lowercasing of a character list. -/
def lowerAll (cs : List Char) : List Char :=
  cs.map Char.toLower

/-- The body of Python float(str) after the sign has been taken:
inf, infinity and nan spellings (case-insensitive) or a decimal literal. -/
def pyParseFloatBody (r : List Char) (neg : Bool) : Option PyFloat :=
  let lw := lowerAll r
  if lw = "inf".data ∨ lw = "infinity".data then some (PyFloat.inf neg)
  else if lw = "nan".data then some PyFloat.nan
  else (parseDecimalCore r).map (fun q => PyFloat.finite (if neg then -q else q))

/-- Python float(str) conversion on the stripped character list. -/
def pyParseFloatL (cs : List Char) : Option PyFloat :=
  match cs with
  | '+' :: r => pyParseFloatBody r false
  | '-' :: r => pyParseFloatBody r true
  | _ => pyParseFloatBody cs false

/-- Python float(str) conversion. -/
def pyParseFloat (s : String) : Option PyFloat :=
  pyParseFloatL (pyStripL s.data)

/-- A typed field value of a parsed result record: one of integer,
floating point, string, or absent (Python None). -/
inductive PyVal where
  | none
  | int (n : Int)
  | float (f : PyFloat)
  | str (s : String)
  deriving DecidableEq, Repr

/-- CodeMaatWrapper._convert_value: empty or whitespace-only becomes None,
else try int, else try float, else the stripped string. -/
def convertValue (s : String) : PyVal :=
  if pyStrip s = "" then PyVal.none
  else
    match pyParseInt s with
    | some n => PyVal.int n
    | Option.none =>
      match pyParseFloat s with
      | some f => PyVal.float f
      | Option.none => PyVal.str (pyStrip s)

/-- The failure taxonomy realized by the raise sites of the module. -/
inductive ErrKind where
  | configuration
  | validation
  | execution
  | timeout
  | parse
  deriving DecidableEq, Repr

/-- A raised CodeMaatError: the kind of its raise site plus its message. -/
structure CMErr where
  kind : ErrKind
  msg : String
  deriving DecidableEq, Repr

deriving instance DecidableEq for Except

/-- The error raised when CSV conversion fails inside _parse_csv_output
(the Python message also appends the text of the underlying exception,
which is not modelled). -/
def parseErr : CMErr :=
  ⟨ErrKind.parse, "Failed to parse CSV output"⟩

/-- One parsed result record: an ordered mapping from column name to value. -/
abbrev Record := List (String × PyVal)

/-- Splitting a character list at the universal newline separators
(carriage return plus line feed, lone carriage return, lone line feed). -/
def splitLinesAux : List Char → List Char → List (List Char)
  | [], acc => [acc.reverse]
  | '\r' :: '\n' :: rest, acc => acc.reverse :: splitLinesAux rest []
  | '\r' :: rest, acc => acc.reverse :: splitLinesAux rest []
  | '\n' :: rest, acc => acc.reverse :: splitLinesAux rest []
  | c :: rest, acc => splitLinesAux rest (c :: acc)

/-- The lines seen by csv.DictReader when iterating io.StringIO:
universal newlines, and a trailing newline does not open an extra line. -/
def pyLines (s : String) : List String :=
  let parts := (splitLinesAux s.data []).map (fun l => String.mk l)
  match parts.getLast? with
  | some "" => parts.dropLast
  | _ => parts

/-- Splitting a character list at commas. -/
def splitCommaAux : List Char → List Char → List (List Char)
  | [], acc => [acc.reverse]
  | ',' :: rest, acc => acc.reverse :: splitCommaAux rest []
  | c :: rest, acc => splitCommaAux rest (c :: acc)

/-- The raw rows produced by csv.reader on unquoted engine output: each line
split at commas, an empty line giving the empty row. -/
def csvRows (s : String) : List (List String) :=
  (pyLines s).map (fun l => if l = "" then [] else (splitCommaAux l.data []).map String.mk)

/-- A cell as seen when iterating a csv.DictReader row dictionary: a field
string, the None restval of a missing trailing column, or the surplus-field
list stored under the restkey of an overlong row. -/
inductive CellVal where
  | cell (s : String)
  | missing
  | extras (vs : List String)
  deriving DecidableEq, Repr

/-- One csv.DictReader row dictionary: header zipped with the row, missing
trailing columns padded with the None restval, surplus fields collected under
the restkey (the Python restkey is the None object; it is written "" here,
which is observationally irrelevant because the extras cell always makes the
conversion loop raise before any key is emitted). Column names are assumed
distinct, as in all engine output; the Python dictionary would collapse
duplicate names. -/
def dictRow (header row : List String) : List (String × CellVal) :=
  (header.zip row).map (fun p => (p.1, CellVal.cell p.2))
    ++ (header.drop row.length).map (fun k => (k, CellVal.missing))
    ++ (if header.length < row.length then [("", CellVal.extras (row.drop header.length))] else [])

/-- csv.DictReader over raw rows: the first row is the header (an absent
header yields no records), every later non-empty row becomes one dictionary. -/
def dictReadRows : List (List String) → List (List (String × CellVal))
  | [] => []
  | header :: rest => (rest.filter (fun r => r ≠ [])).map (dictRow header)

/-- _convert_value applied to one dictionary cell: a string field is converted
normally, the None restval stays None, and the surplus-field list raises
(list.strip does not exist), which _parse_csv_output turns into parseErr. -/
def convertCell : CellVal → Except CMErr PyVal
  | CellVal.cell s => Except.ok (convertValue s)
  | CellVal.missing => Except.ok PyVal.none
  | CellVal.extras _ => Except.error parseErr

/-- The inner conversion loop of _parse_csv_output over one row dictionary,
aborting at the first failing cell. -/
def convertRow : List (String × CellVal) → Except CMErr Record
  | [] => Except.ok []
  | (k, c) :: rest =>
    match convertCell c with
    | Except.error e => Except.error e
    | Except.ok v =>
      match convertRow rest with
      | Except.error e => Except.error e
      | Except.ok vs => Except.ok ((k, v) :: vs)

/-- The outer conversion loop of _parse_csv_output, aborting at the first
failing row. -/
def convertRows : List (List (String × CellVal)) → Except CMErr (List Record)
  | [] => Except.ok []
  | r :: rs =>
    match convertRow r with
    | Except.error e => Except.error e
    | Except.ok rec =>
      match convertRows rs with
      | Except.error e => Except.error e
      | Except.ok recs => Except.ok (rec :: recs)

/-- CodeMaatWrapper._parse_csv_output: empty or whitespace-only input yields
the empty sequence; otherwise the rows are read as dictionaries and every
cell is converted to a typed value. -/
def parseCsvOutput (s : String) : Except CMErr (List Record) :=
  if pyStrip s = "" then Except.ok []
  else convertRows (dictReadRows (csvRows s))

/-- A value passed in the optional keyword-argument bag of run_analysis
(the shapes that callers actually pass: None, integers, booleans, strings). -/
inductive KwVal where
  | none
  | int (n : Int)
  | bool (b : Bool)
  | str (s : String)
  deriving DecidableEq, Repr

/-- Python str(...) on a keyword-argument value. -/
def pyStr (v : KwVal) : String :=
  match v with
  | KwVal.none => "None"
  | KwVal.int n => toString n
  | KwVal.bool b => if b then "True" else "False"
  | KwVal.str s => s

/-- Python dict.get on the keyword-argument bag (keys are unique in a real
Python dict; lookup takes the first match). -/
def kwargsGet (kwargs : List (String × KwVal)) (k : String) : Option KwVal :=
  match kwargs with
  | [] => Option.none
  | (p, v) :: rest => if p = k then some v else kwargsGet rest k

/-- Python truthiness of the result of kwargs.get: absent and None are falsy,
numbers are truthy unless zero, strings unless empty. -/
def pyTruthy (v : Option KwVal) : Bool :=
  match v with
  | Option.none => false
  | some KwVal.none => false
  | some (KwVal.int n) => n ≠ 0
  | some (KwVal.bool b) => b
  | some (KwVal.str s) => s ≠ ""

/-- The param_mapping table of _add_optional_params. -/
def paramMapping (p : String) : Option String :=
  if p = "rows" then some "-r"
  else if p = "group" then some "-g"
  else if p = "team_map_file" then some "-p"
  else if p = "min_revs" then some "-n"
  else if p = "min_shared_revs" then some "-m"
  else if p = "min_coupling" then some "-i"
  else if p = "max_coupling" then some "-x"
  else if p = "max_changeset_size" then some "-s"
  else if p = "expression_to_match" then some "-e"
  else if p = "temporal_period" then some "-t"
  else if p = "age_time_now" then some "-d"
  else if p = "input_encoding" then some "--input-encoding"
  else Option.none

/-- One iteration of the parameter loop of _add_optional_params: a non-None
value whose name is in the table appends its flag and stringified value. -/
def optStep (acc : List String) (e : String × KwVal) : List String :=
  if e.2 = KwVal.none then acc
  else
    match paramMapping e.1 with
    | some fl => acc ++ [fl, pyStr e.2]
    | Option.none => acc

/-- CodeMaatWrapper._add_optional_params: the parameter loop over the bag in
insertion order, then the bare verbose flag when kwargs.get is truthy. -/
def addOptionalParams (cmd : List String) (kwargs : List (String × KwVal)) : List String :=
  let c := kwargs.foldl optStep cmd
  if pyTruthy (kwargsGet kwargs "verbose_results") then c ++ ["--verbose-results"] else c

/-- The contribution of one bag entry to the argument vector, as a
specification value for the loop. -/
def paramContrib (e : String × KwVal) : Option (List String) :=
  if e.2 = KwVal.none then Option.none
  else (paramMapping e.1).map (fun fl => [fl, pyStr e.2])

/-- Keep the bag entries that carry an actual value (not None). -/
def keepValued (e : String × KwVal) : Bool :=
  match e.2 with
  | KwVal.none => false
  | _ => true

/-- Keep the bag entries whose name is recognized: in the flag table or the
boolean verbose_results. -/
def recognizedOrVerbose (e : String × KwVal) : Bool :=
  (paramMapping e.1).isSome || e.1 == "verbose_results"

/-- The engine configuration held by the wrapper (dataclass CodeMaatConfig;
a None java_opts is normalized to the defaults by __post_init__, so the field
is stored already normalized here). -/
structure CodeMaatConfig where
  jar_path : String
  java_executable : String
  java_opts : List String
  deriving DecidableEq, Repr

/-- The built-in default runtime options of CodeMaatConfig.__post_init__. -/
def defaultJavaOpts : List String :=
  ["-Xmx4g", "-Djava.awt.headless=true", "-Xss512M"]

/-- The built-in default engine artifact path of _load_config. -/
def defaultJarPath : String :=
  "../target/code-maat-1.0.5-SNAPSHOT-standalone.jar"

/-- The code_maat section of a parsed configuration document, each field
present or absent. -/
structure RawCodeMaat where
  jar_path : Option String
  java_executable : Option String
  java_opts : Option (List String)
  deriving DecidableEq, Repr

/-- CodeMaatWrapper._load_config: the input is the parsed code_maat section
when the document could be read, or Option.none when the file is absent
(FileNotFoundError) or malformed (JSONDecodeError); either way every missing
piece falls back to the built-in defaults. -/
def loadConfig : Option RawCodeMaat → CodeMaatConfig
  | some raw =>
      ⟨raw.jar_path.getD defaultJarPath,
       raw.java_executable.getD "java",
       raw.java_opts.getD defaultJavaOpts⟩
  | Option.none => ⟨defaultJarPath, "java", defaultJavaOpts⟩

/-- Path absoluteness on the POSIX paths this server runs with. -/
def isAbsolutePath (p : String) : Bool :=
  match p.data with
  | '/' :: _ => true
  | _ => false

/-- Splitting a character list at a separator character. -/
def splitOnCharAux (sep : Char) : List Char → List Char → List (List Char)
  | [], acc => [acc.reverse]
  | c :: rest, acc =>
      if c = sep then acc.reverse :: splitOnCharAux sep rest []
      else splitOnCharAux sep rest (c :: acc)

/-- Lexical path normalization of pathlib resolve (no symlinks): empty and
dot segments vanish, a dot-dot segment removes the previous one. -/
def normalizeSegs (segs : List String) : List String :=
  segs.foldl
    (fun acc seg =>
      if seg = "" ∨ seg = "." then acc
      else if seg = ".." then acc.dropLast
      else acc ++ [seg])
    []

/-- (base / p).resolve() for an absolute base directory. -/
def resolveRel (base p : String) : String :=
  "/" ++ String.intercalate "/"
    (normalizeSegs ((splitOnCharAux '/' (base ++ "/" ++ p).data []).map String.mk))

/-- The path rewrite of _validate_config: a relative engine path is resolved
against the fixed base directory, an absolute one is kept. -/
def absolutizeJarPath (base p : String) : String :=
  if isAbsolutePath p then p else resolveRel base p

/-- CodeMaatWrapper._validate_config: rewrite the engine path, then require
that it exists on disk; on success the rewritten path is stored back. -/
def validateConfig (base : String) (fs : String → Bool) (cfg : CodeMaatConfig) :
    Except CMErr CodeMaatConfig :=
  let jp := absolutizeJarPath base cfg.jar_path
  if fs jp then Except.ok { cfg with jar_path := jp }
  else Except.error ⟨ErrKind.configuration, "Code Maat JAR not found at: " ++ jp⟩

/-- The SUPPORTED_VCS closed set (its Python spelling is a set literal; the
literal order is used for the joined message text). -/
def SUPPORTED_VCS : List String :=
  ["git", "git2", "svn", "hg", "p4", "tfs"]

/-- The SUPPORTED_ANALYSES closed set of 18 analyses. -/
def SUPPORTED_ANALYSES : List String :=
  ["authors", "revisions", "coupling", "soc", "summary", "identity",
   "abs-churn", "author-churn", "entity-churn", "entity-ownership",
   "main-dev", "refactoring-main-dev", "entity-effort", "main-dev-by-revs",
   "fragmentation", "communication", "messages", "age"]

/-- CodeMaatWrapper.validate_inputs: the log file must exist on disk and the
vcs and analysis kinds must be members of their closed sets, checked in that
order; each violation raises before anything else happens. -/
def validateInputs (fs : String → Bool) (logFile vcs analysis : String) :
    Except CMErr Unit :=
  if ¬ fs logFile then
    Except.error ⟨ErrKind.validation, "Log file not found: " ++ logFile⟩
  else if vcs ∉ SUPPORTED_VCS then
    Except.error ⟨ErrKind.validation,
      "Unsupported VCS: " ++ vcs ++ ". Supported: " ++ String.intercalate ", " SUPPORTED_VCS⟩
  else if analysis ∉ SUPPORTED_ANALYSES then
    Except.error ⟨ErrKind.validation,
      "Unsupported analysis: " ++ analysis ++ ". Supported: "
        ++ String.intercalate ", " SUPPORTED_ANALYSES⟩
  else Except.ok ()

/-- The argument vector built inline by run_analysis: runtime executable,
runtime options, the jar, log, vcs and analysis pairs, then the optional
parameters. -/
def buildCmd (cfg : CodeMaatConfig) (logFile vcs analysis : String)
    (kwargs : List (String × KwVal)) : List String :=
  addOptionalParams
    ([cfg.java_executable] ++ cfg.java_opts
      ++ ["-jar", cfg.jar_path, "-l", logFile, "-c", vcs, "-a", analysis])
    kwargs

/-- One request handed to subprocess.run: argument vector, working directory,
timeout in seconds. -/
structure SpawnReq where
  argv : List String
  cwd : Option String
  timeoutSec : Option Nat
  deriving DecidableEq, Repr

/-- The outcome of a bounded subprocess.run call: completion with exit code
and captured output text, or expiry of the timeout. -/
inductive ProcResult where
  | completed (exitCode : Int) (stdout stderr : String)
  | timedOut

/-- CodeMaatWrapper.run_analysis, with the process spawner abstracted as an
executor function and the spawned requests returned as a trace: validate,
build the command, run it with the 300 second timeout, then parse the
standard output; a non-zero exit becomes an execution error carrying the
captured standard error, expiry becomes a timeout error. -/
def runAnalysis (cfg : CodeMaatConfig) (fs : String → Bool)
    (proc : SpawnReq → ProcResult) (logFile vcs analysis : String)
    (kwargs : List (String × KwVal)) :
    Except CMErr (List Record) × List SpawnReq :=
  match validateInputs fs logFile vcs analysis with
  | Except.error e => (Except.error e, [])
  | Except.ok _ =>
    let req : SpawnReq := ⟨buildCmd cfg logFile vcs analysis kwargs, Option.none, some 300⟩
    match proc req with
    | ProcResult.timedOut =>
        (Except.error ⟨ErrKind.timeout, "Code Maat execution timed out"⟩, [req])
    | ProcResult.completed c out err =>
        if c = 0 then (parseCsvOutput out, [req])
        else (Except.error ⟨ErrKind.execution, "Code Maat execution failed: " ++ err⟩, [req])

/-- The git log command built by generate_git_log for the chosen format,
date filter and path exclusions (an empty or absent exclusion list is falsy
and appends nothing). -/
def buildGitLogCmd (formatType : String) (afterDate : Option String)
    (excludePaths : Option (List String)) : List String :=
  let base :=
    if formatType = "git2" then
      ["git", "log", "--all", "--numstat", "--date=short",
       "--pretty=format:--%h--%ad--%aN", "--no-renames"]
    else
      ["git", "log", "--pretty=format:[%h] %aN %ad %s", "--date=short", "--numstat"]
  let withDate :=
    base ++ (match afterDate with
      | some d => ["--after=" ++ d]
      | Option.none => [])
  withDate ++ (match excludePaths with
    | some ps =>
        if ps = [] then [] else ["--", "."] ++ ps.map (fun p => ":(exclude)" ++ p)
    | Option.none => [])

/-- The observable outcome of generate_git_log: its return or raised error,
the spawned requests, and the files written with their contents. -/
structure GitLogResult where
  result : Except CMErr String
  spawned : List SpawnReq
  writes : List (String × String)

/-- CodeMaatWrapper.generate_git_log, spawner abstracted as an executor that
always completes (this call passes no timeout): require the repository path
to exist, run the git client with the repository as working directory, write
the captured standard output verbatim to the output file and return that
path; a non-zero exit becomes an execution error carrying the captured
standard error. -/
def generateGitLog (fs : String → Bool) (proc : SpawnReq → Int × String × String)
    (repoPath outputFile formatType : String) (afterDate : Option String)
    (excludePaths : Option (List String)) : GitLogResult :=
  if ¬ fs repoPath then
    ⟨Except.error ⟨ErrKind.validation, "Repository path not found: " ++ repoPath⟩, [], []⟩
  else
    let req : SpawnReq :=
      ⟨buildGitLogCmd formatType afterDate excludePaths, some repoPath, Option.none⟩
    match proc req with
    | (code, out, err) =>
      if code = 0 then ⟨Except.ok outputFile, [req], [(outputFile, out)]⟩
      else ⟨Except.error ⟨ErrKind.execution, "Git log generation failed: " ++ err⟩, [req], []⟩

/-- Modelled from the spec: the optional-flag suffix the ordering claim
predicts, in which every recognized parameter, verbose_results included,
contributes at its own insertion position in the parameters mapping. -/
def specInsertionOrderFlags (kwargs : List (String × KwVal)) : List String :=
  (kwargs.map (fun e =>
    if e.1 = "verbose_results" then
      (if pyTruthy (some e.2) then ["--verbose-results"] else [])
    else
      match paramContrib e with
      | some ch => ch
      | Option.none => [])).flatten

/-- The parameter loop of _add_optional_params appends, in bag order, the
contribution of each entry. -/
theorem foldl_optStep_eq (kwargs : List (String × KwVal)) :
    ∀ cmd, kwargs.foldl optStep cmd = cmd ++ (kwargs.filterMap paramContrib).flatten := by
  induction kwargs with
  | nil => intro cmd; simp
  | cons e l ih =>
    intro cmd
    have hstep : optStep cmd e = cmd ++ (paramContrib e).toList.flatten := by
      unfold optStep paramContrib
      by_cases h : e.2 = KwVal.none
      · simp [h]
      · cases hm : paramMapping e.1 <;> simp [h, hm]
    rw [List.foldl_cons, ih (optStep cmd e), hstep]
    cases hc : paramContrib e with
    | none => simp [List.filterMap_cons, hc]
    | some ch => simp [List.filterMap_cons, hc]

/-- _add_optional_params in closed form: the accumulated command, the entry
contributions in insertion order, then the bare verbose flag when the bag
holds a truthy verbose_results. -/
theorem addOptionalParams_eq (cmd : List String) (kwargs : List (String × KwVal)) :
    addOptionalParams cmd kwargs =
      cmd ++ (kwargs.filterMap paramContrib).flatten
        ++ (if pyTruthy (kwargsGet kwargs "verbose_results") then ["--verbose-results"] else []) := by
  unfold addOptionalParams
  rw [foldl_optStep_eq]
  by_cases h : pyTruthy (kwargsGet kwargs "verbose_results") <;> simp [h]

/-- A bag entry with a contribution places that contribution contiguously
somewhere in the joined flag list. -/
theorem contrib_chunk_mem (e : String × KwVal) (ch : List String)
    (kwargs : List (String × KwVal)) (he : e ∈ kwargs) (hc : paramContrib e = some ch) :
    ∃ l1 l2, (kwargs.filterMap paramContrib).flatten = l1 ++ ch ++ l2 := by
  induction kwargs with
  | nil => cases he
  | cons a l ih =>
    rcases List.mem_cons.mp he with rfl | hmem
    · exact ⟨[], (l.filterMap paramContrib).flatten, by simp [List.filterMap_cons, hc]⟩
    · obtain ⟨l1, l2, hh⟩ := ih hmem
      cases ha : paramContrib a with
      | none => exact ⟨l1, l2, by simp [List.filterMap_cons, ha, hh]⟩
      | some cha =>
          exact ⟨cha ++ l1, l2, by simp [List.filterMap_cons, ha, hh]⟩

/-- Dropping bag entries that contribute nothing does not change the joined
flag list. -/
theorem filterMap_contrib_filter (q : String × KwVal → Bool)
    (hq : ∀ e, q e = false → paramContrib e = Option.none) :
    ∀ kwargs : List (String × KwVal),
      ((kwargs.filter q).filterMap paramContrib) = kwargs.filterMap paramContrib := by
  intro kwargs
  induction kwargs with
  | nil => simp
  | cons a l ih =>
    cases hqa : q a with
    | true => simp [List.filter_cons, hqa, List.filterMap_cons, ih]
    | false => simp [List.filter_cons, hqa, List.filterMap_cons, hq a hqa, ih]

/-- dict.get is unchanged by a filter that keeps every entry carrying the
looked-up key. -/
theorem kwargsGet_filter_keepkey (q : String × KwVal → Bool) (k : String)
    (hq : ∀ e : String × KwVal, e.1 = k → q e = true) :
    ∀ kwargs, kwargsGet (kwargs.filter q) k = kwargsGet kwargs k := by
  intro kwargs
  induction kwargs with
  | nil => simp [kwargsGet]
  | cons a l ih =>
    cases hqa : q a with
    | true =>
        by_cases hk : a.1 = k <;>
          simp [List.filter_cons, hqa, kwargsGet, hk, ih]
    | false =>
        have hk : a.1 ≠ k := fun h => by simp [hq a h] at hqa
        simp [List.filter_cons, hqa, kwargsGet, hk, ih]

/-- dict.get misses when the key is absent from the bag. -/
theorem kwargsGet_eq_none (k : String) :
    ∀ kwargs : List (String × KwVal), k ∉ kwargs.map Prod.fst →
      kwargsGet kwargs k = Option.none := by
  intro kwargs
  induction kwargs with
  | nil => intro _; rfl
  | cons a l ih =>
    intro h
    have h1 : a.1 ≠ k := fun hh => h (by simp [hh])
    have h2 : k ∉ l.map Prod.fst := fun hh => h (by simp [hh])
    simp [kwargsGet, h1, ih h2]

unseal Rat.add Rat.mul Rat.inv in
/-- Claim C2: for every field value the parser applies the ordered fallback:
a trimmed-empty value becomes absent; else a successful integer parse wins
(so "07" becomes the integer 7); else a successful floating-point parse wins
(so "3.5" becomes 3.5); else the trimmed string remains (so "  hi  " becomes
"hi", and "" becomes absent). -/
theorem claim_C2 (s : String) :
    (pyStrip s = "" → convertValue s = PyVal.none)
    ∧ (∀ n, pyStrip s ≠ "" → pyParseInt s = some n → convertValue s = PyVal.int n)
    ∧ (∀ f, pyStrip s ≠ "" → pyParseInt s = Option.none → pyParseFloat s = some f →
        convertValue s = PyVal.float f)
    ∧ (pyStrip s ≠ "" → pyParseInt s = Option.none → pyParseFloat s = Option.none →
        convertValue s = PyVal.str (pyStrip s))
    ∧ convertValue "07" = PyVal.int 7
    ∧ convertValue "3.5" = PyVal.float (PyFloat.finite (7 / 2))
    ∧ convertValue "  hi  " = PyVal.str "hi"
    ∧ convertValue "" = PyVal.none := by
  refine ⟨?_, ?_, ?_, ?_, by decide, by decide, by decide, by decide⟩
  · intro h; simp [convertValue, h]
  · intro n hne hint; simp [convertValue, hne, hint]
  · intro f hne hint hfl; simp [convertValue, hne, hint, hfl]
  · intro hne hint hfl; simp [convertValue, hne, hint, hfl]

/-- Claim C2 witness: the integer branch of the fallback evaluated at the
concrete field "07". -/
theorem claim_C2_witness :
    pyStrip "07" ≠ "" ∧ pyParseInt "07" = some 7 ∧ convertValue "07" = PyVal.int 7 :=
  ⟨by decide, by decide, (claim_C2 "07").2.1 7 (by decide) (by decide)⟩

/-- Claim C6: parsing an empty or whitespace-only output text yields the
empty record sequence, never an error. -/
theorem claim_C6 (s : String) (h : ∀ c ∈ s.data, pyIsSpace c = true) :
    parseCsvOutput s = Except.ok [] := by
  have h1 : s.data.dropWhile pyIsSpace = [] := List.dropWhile_eq_nil_iff.mpr h
  have hstrip : pyStrip s = "" := by
    simp [pyStrip, pyStripL, h1]
  simp [parseCsvOutput, hstrip]

/-- Claim C6 witness: a concrete whitespace-only output text parses to the
empty sequence. -/
theorem claim_C6_witness :
    (∀ c ∈ ("  \t\n  " : String).data, pyIsSpace c = true)
      ∧ parseCsvOutput "  \t\n  " = Except.ok [] :=
  ⟨by decide, claim_C6 "  \t\n  " (by decide)⟩

/-- Converting a run of restval cells yields absent values throughout. -/
theorem convertRow_missing (ks : List String) :
    convertRow (ks.map (fun k => (k, CellVal.missing)))
      = Except.ok (ks.map (fun k => (k, PyVal.none))) := by
  induction ks with
  | nil => rfl
  | cons k t ih => simp [convertRow, convertCell, ih]

/-- Converting a run of plain field cells applies _convert_value pointwise. -/
theorem convertRow_cells (ps : List (String × String)) :
    convertRow (ps.map (fun p => (p.1, CellVal.cell p.2)))
      = Except.ok (ps.map (fun p => (p.1, convertValue p.2))) := by
  induction ps with
  | nil => rfl
  | cons p t ih => simp [convertRow, convertCell, ih]

/-- The conversion loop over an appended row half, when the first half
converts cleanly. -/
theorem convertRow_append_ok :
    ∀ (l1 : List (String × CellVal)) (v1 : Record), convertRow l1 = Except.ok v1 →
      ∀ l2, convertRow (l1 ++ l2) = (convertRow l2).map (fun v2 => v1 ++ v2) := by
  intro l1
  induction l1 with
  | nil =>
    intro v1 h l2
    have hv : v1 = [] := by
      simpa [convertRow] using h.symm
    subst hv
    cases hc : convertRow l2 <;> simp [hc, Except.map]
  | cons a t ih =>
    intro v1 h l2
    obtain ⟨k, c⟩ := a
    cases hc : convertCell c with
    | error e => simp [convertRow, hc] at h
    | ok v =>
      cases ht : convertRow t with
      | error e => simp [convertRow, hc, ht] at h
      | ok vs =>
        have hv : v1 = (k, v) :: vs := by
          simpa [convertRow, hc, ht] using h.symm
        subst hv
        have := ih vs ht l2
        cases hl : convertRow l2 with
        | error e => simp [convertRow, hc, this, hl, Except.map]
        | ok v2 => simp [convertRow, hc, this, hl, Except.map]

/-- A trailing restkey cell of surplus fields makes the conversion loop fail
with the parse error, whatever came before it converted to. -/
theorem convertRow_extras_err (l1 : List (String × CellVal)) (v1 : Record)
    (h1 : convertRow l1 = Except.ok v1) (k : String) (es : List String) :
    convertRow (l1 ++ [(k, CellVal.extras es)]) = Except.error parseErr := by
  rw [convertRow_append_ok l1 v1 h1]
  simp [convertRow, convertCell, Except.map]

/-- Claim C9: with a header of n distinct column names, a data row with fewer
than n fields yields a record whose missing trailing columns are absent, not
an error; a data row with more than n fields fails the whole parse with the
parse error. -/
theorem claim_C9 (header drow : List String) (hnd : header.Nodup) :
    (drow ≠ [] → drow.length < header.length →
      convertRows (dictReadRows [header, drow]) =
        Except.ok [(header.zip drow).map (fun p => (p.1, convertValue p.2))
          ++ (header.drop drow.length).map (fun k => (k, PyVal.none))])
    ∧ (header.length < drow.length →
      convertRows (dictReadRows [header, drow]) = Except.error parseErr)
    ∧ parseCsvOutput "a,b,c\n1,2" =
        Except.ok [[("a", PyVal.int 1), ("b", PyVal.int 2), ("c", PyVal.none)]]
    ∧ parseCsvOutput "a,b\n1,2,3" = Except.error parseErr := by
  refine ⟨?_, ?_, by decide, by decide⟩
  · intro hne hlt
    have hrows : dictReadRows [header, drow] = [dictRow header drow] := by
      simp [dictReadRows, hne]
    have hno : ¬ (header.length < drow.length) := by omega
    have hrow : dictRow header drow
        = (header.zip drow).map (fun p => (p.1, CellVal.cell p.2))
          ++ (header.drop drow.length).map (fun k => (k, CellVal.missing)) := by
      simp only [dictRow, if_neg hno, List.append_nil]
    have h3 := convertRow_append_ok _ _ (convertRow_cells (header.zip drow))
      ((header.drop drow.length).map (fun k => (k, CellVal.missing)))
    rw [convertRow_missing (header.drop drow.length)] at h3
    have hconv : convertRow (dictRow header drow)
        = Except.ok ((header.zip drow).map (fun p => (p.1, convertValue p.2))
            ++ (header.drop drow.length).map (fun k => (k, PyVal.none))) := by
      rw [hrow, h3]
      rfl
    rw [hrows]
    simp [convertRows, hconv]
  · intro hlt
    have hne : drow ≠ [] := by
      intro h
      rw [h] at hlt
      simp at hlt
    have hrows : dictReadRows [header, drow] = [dictRow header drow] := by
      simp [dictReadRows, hne]
    have hdrop : header.drop drow.length = [] :=
      List.drop_eq_nil_of_le (by omega)
    have hrow : dictRow header drow
        = (header.zip drow).map (fun p => (p.1, CellVal.cell p.2))
          ++ [("", CellVal.extras (drow.drop header.length))] := by
      simp only [dictRow, if_pos hlt, hdrop, List.map_nil, List.append_nil, List.nil_append]
    have herr := convertRow_extras_err _ _ (convertRow_cells (header.zip drow))
      "" (drow.drop header.length)
    have hconv : convertRow (dictRow header drow) = Except.error parseErr := by
      rw [hrow]
      exact herr
    rw [hrows]
    simp [convertRows, hconv]

/-- Claim C9 witness: a two-field data row under a three-column header keeps
the first two columns and makes the third absent. -/
theorem claim_C9_witness :
    (["a", "b", "c"] : List String).Nodup
    ∧ (["1", "2"] : List String) ≠ []
    ∧ (["1", "2"] : List String).length < (["a", "b", "c"] : List String).length
    ∧ convertRows (dictReadRows [["a", "b", "c"], ["1", "2"]]) =
        Except.ok [[("a", PyVal.int 1), ("b", PyVal.int 2), ("c", PyVal.none)]] :=
  ⟨by decide, by decide, by decide, by
    have h := (claim_C9 ["a", "b", "c"] ["1", "2"] (by decide)).1 (by decide) (by decide)
    rw [h]
    decide⟩

/-- Any violation of the input invariants makes validate_inputs raise a
validation error. -/
theorem validateInputs_error (fs : String → Bool) (logFile vcs analysis : String)
    (h : vcs ∉ SUPPORTED_VCS ∨ analysis ∉ SUPPORTED_ANALYSES ∨ fs logFile = false) :
    ∃ m, validateInputs fs logFile vcs analysis = Except.error ⟨ErrKind.validation, m⟩ := by
  unfold validateInputs
  by_cases h1 : fs logFile = true
  · by_cases h2 : vcs ∈ SUPPORTED_VCS
    · by_cases h3 : analysis ∈ SUPPORTED_ANALYSES
      · exfalso
        rcases h with h | h | h
        · exact h h2
        · exact h h3
        · rw [h] at h1; exact Bool.false_ne_true h1
      · exact ⟨"Unsupported analysis: " ++ analysis ++ ". Supported: "
            ++ String.intercalate ", " SUPPORTED_ANALYSES, by simp [h1, h2, h3]⟩
    · exact ⟨"Unsupported VCS: " ++ vcs ++ ". Supported: "
          ++ String.intercalate ", " SUPPORTED_VCS, by simp [h1, h2]⟩
  · exact ⟨"Log file not found: " ++ logFile, by simp [h1]⟩

/-- Claim C1: a request whose vcs kind or analysis kind is outside its closed
set, or whose log path does not exist on disk, fails with a validation error
and spawns no external process at all. -/
theorem claim_C1 (cfg : CodeMaatConfig) (fs : String → Bool)
    (proc : SpawnReq → ProcResult) (logFile vcs analysis : String)
    (kwargs : List (String × KwVal))
    (h : vcs ∉ SUPPORTED_VCS ∨ analysis ∉ SUPPORTED_ANALYSES ∨ fs logFile = false) :
    (∃ m, (runAnalysis cfg fs proc logFile vcs analysis kwargs).1
        = Except.error ⟨ErrKind.validation, m⟩)
    ∧ (runAnalysis cfg fs proc logFile vcs analysis kwargs).2 = [] := by
  obtain ⟨m, hm⟩ := validateInputs_error fs logFile vcs analysis h
  exact ⟨⟨m, by simp [runAnalysis, hm]⟩, by simp [runAnalysis, hm]⟩

/-- Claim C1 witness: the unsupported vcs kind cvs is rejected with a
validation error and an empty spawn trace. -/
theorem claim_C1_witness :
    ("cvs" ∉ SUPPORTED_VCS)
    ∧ (∃ m, (runAnalysis ⟨"cm.jar", "java", []⟩ (fun _ => true)
          (fun _ => ProcResult.timedOut) "log.txt" "cvs" "authors" []).1
        = Except.error ⟨ErrKind.validation, m⟩)
    ∧ (runAnalysis ⟨"cm.jar", "java", []⟩ (fun _ => true)
          (fun _ => ProcResult.timedOut) "log.txt" "cvs" "authors" []).2 = [] :=
  ⟨by decide,
    (claim_C1 ⟨"cm.jar", "java", []⟩ (fun _ => true) (fun _ => ProcResult.timedOut)
      "log.txt" "cvs" "authors" [] (Or.inl (by decide))).1,
    (claim_C1 ⟨"cm.jar", "java", []⟩ (fun _ => true) (fun _ => ProcResult.timedOut)
      "log.txt" "cvs" "authors" [] (Or.inl (by decide))).2⟩

/-- Claim C4: once validation passes, the single spawned request carries the
300 second timeout; a process completing with a non-zero exit code turns into
an execution error whose message carries the captured standard error verbatim,
and an expired timeout turns into a timeout error. -/
theorem claim_C4 (cfg : CodeMaatConfig) (fs : String → Bool)
    (proc : SpawnReq → ProcResult) (logFile vcs analysis : String)
    (kwargs : List (String × KwVal))
    (h1 : fs logFile = true) (h2 : vcs ∈ SUPPORTED_VCS) (h3 : analysis ∈ SUPPORTED_ANALYSES) :
    (SpawnReq.mk (buildCmd cfg logFile vcs analysis kwargs) Option.none (some 300)).timeoutSec
        = some 300
    ∧ (∀ c out err,
        proc ⟨buildCmd cfg logFile vcs analysis kwargs, Option.none, some 300⟩
            = ProcResult.completed c out err → c ≠ 0 →
        (runAnalysis cfg fs proc logFile vcs analysis kwargs).1
          = Except.error ⟨ErrKind.execution, "Code Maat execution failed: " ++ err⟩)
    ∧ (proc ⟨buildCmd cfg logFile vcs analysis kwargs, Option.none, some 300⟩
            = ProcResult.timedOut →
        (runAnalysis cfg fs proc logFile vcs analysis kwargs).1
          = Except.error ⟨ErrKind.timeout, "Code Maat execution timed out"⟩) := by
  have hv : validateInputs fs logFile vcs analysis = Except.ok () := by
    simp [validateInputs, h1, h2, h3]
  refine ⟨rfl, ?_, ?_⟩
  · intro c out err hp hc
    simp [runAnalysis, hv, hp, hc]
  · intro hp
    simp [runAnalysis, hv, hp]

/-- Claim C4 witness: a process exiting with status 1 and standard error
boom yields the execution error carrying boom. -/
theorem claim_C4_witness :
    (runAnalysis ⟨"cm.jar", "java", []⟩ (fun _ => true)
        (fun _ => ProcResult.completed 1 "" "boom") "log.txt" "git" "authors" []).1
      = Except.error ⟨ErrKind.execution, "Code Maat execution failed: " ++ "boom"⟩ :=
  (claim_C4 ⟨"cm.jar", "java", []⟩ (fun _ => true)
      (fun _ => ProcResult.completed 1 "" "boom") "log.txt" "git" "authors" []
      rfl (by decide) (by decide)).2.1 1 "" "boom" rfl (by decide)

/-- A key absent from a bag is absent from any filtered version of it. -/
theorem kwargsGet_filter_eq_none (q : String × KwVal → Bool) (k : String) :
    ∀ l : List (String × KwVal), k ∉ l.map Prod.fst →
      kwargsGet (l.filter q) k = Option.none := by
  intro l
  induction l with
  | nil => intro _; rfl
  | cons a t ih =>
    intro h
    have h1 : a.1 ≠ k := fun hh => h (by simp [hh])
    have h2 : k ∉ t.map Prod.fst := fun hh => h (by simp [hh])
    cases hq : q a with
    | true => simp [List.filter_cons, hq, kwargsGet, h1, ih h2]
    | false => simp [List.filter_cons, hq, ih h2]

/-- Filtering the None-valued entries out of a bag with unique keys does not
change the truthiness of the verbose_results lookup. -/
theorem truthy_get_filter_ne_none (kwargs : List (String × KwVal))
    (hnd : (kwargs.map Prod.fst).Nodup) :
    pyTruthy (kwargsGet (kwargs.filter keepValued) "verbose_results")
      = pyTruthy (kwargsGet kwargs "verbose_results") := by
  induction kwargs with
  | nil => rfl
  | cons a t ih =>
    have hx : a.1 ∉ t.map Prod.fst := (List.nodup_cons.mp (by simpa using hnd)).1
    have hnd2 : (t.map Prod.fst).Nodup := (List.nodup_cons.mp (by simpa using hnd)).2
    by_cases hk : a.1 = "verbose_results"
    · by_cases hv : a.2 = KwVal.none
      · have hnone : kwargsGet (t.filter keepValued) "verbose_results" = Option.none :=
          kwargsGet_filter_eq_none keepValued "verbose_results" t (hk ▸ hx)
        have hkv : keepValued a = false := by simp [keepValued, hv]
        simp [List.filter_cons, hkv, kwargsGet, hk, hv, hnone, pyTruthy]
      · have hkv : keepValued a = true := by
          unfold keepValued
          cases ha : a.2 <;> simp_all
        simp [List.filter_cons, hkv, kwargsGet, hk]
    · cases hkv : keepValued a with
      | false => simp [List.filter_cons, hkv, kwargsGet, hk, ih hnd2]
      | true => simp [List.filter_cons, hkv, kwargsGet, hk, ih hnd2]

/-- Claim C3: the built argument vector starts with the runtime executable,
the runtime options and the jar, log, vcs and analysis pairs; every
recognized optional parameter carrying a value contributes its mapped flag
immediately followed by the stringified value; unrecognized names contribute
nothing; the optional suffix is the insertion-order contributions followed by
the bare verbose flag exactly when verbose_results is truthy; and the example
bag with min_coupling 50 and a true verbose_results yields the suffix -i 50
followed by the bare trailing flag. -/
theorem claim_C3 (cfg : CodeMaatConfig) (logFile vcs analysis : String)
    (kwargs : List (String × KwVal)) :
    buildCmd cfg logFile vcs analysis kwargs
      = [cfg.java_executable] ++ cfg.java_opts
        ++ ["-jar", cfg.jar_path, "-l", logFile, "-c", vcs, "-a", analysis]
        ++ addOptionalParams [] kwargs
    ∧ (∀ p v fl, (p, v) ∈ kwargs → v ≠ KwVal.none → paramMapping p = some fl →
        ∃ l1 l2, addOptionalParams [] kwargs = l1 ++ [fl, pyStr v] ++ l2)
    ∧ addOptionalParams [] kwargs
        = addOptionalParams [] (kwargs.filter recognizedOrVerbose)
    ∧ addOptionalParams [] kwargs
        = (kwargs.filterMap paramContrib).flatten
          ++ (if pyTruthy (kwargsGet kwargs "verbose_results")
              then ["--verbose-results"] else [])
    ∧ buildCmd cfg logFile vcs analysis
          [("min_coupling", KwVal.int 50), ("verbose_results", KwVal.bool true)]
        = [cfg.java_executable] ++ cfg.java_opts
          ++ ["-jar", cfg.jar_path, "-l", logFile, "-c", vcs, "-a", analysis]
          ++ ["-i", "50", "--verbose-results"] := by
  refine ⟨?_, ?_, ?_, ?_, ?_⟩
  · rw [buildCmd, addOptionalParams_eq, addOptionalParams_eq]
    simp
  · intro p v fl hmem hv hfl
    have hc : paramContrib (p, v) = some [fl, pyStr v] := by
      simp [paramContrib, hv, hfl]
    obtain ⟨l1, l2, hsplit⟩ := contrib_chunk_mem (p, v) [fl, pyStr v] kwargs hmem hc
    refine ⟨l1, l2 ++ (if pyTruthy (kwargsGet kwargs "verbose_results")
        then ["--verbose-results"] else []), ?_⟩
    rw [addOptionalParams_eq, hsplit]
    simp
  · rw [addOptionalParams_eq, addOptionalParams_eq]
    rw [filterMap_contrib_filter recognizedOrVerbose
      (fun e he => by
        cases hm : paramMapping e.1 with
        | none => simp [paramContrib, hm]
        | some fl => simp [recognizedOrVerbose, hm] at he) kwargs]
    rw [kwargsGet_filter_keepkey recognizedOrVerbose "verbose_results"
      (fun e he => by simp [recognizedOrVerbose, he]) kwargs]
  · rw [addOptionalParams_eq]
    simp
  · rw [buildCmd, addOptionalParams_eq]
    simp [paramContrib, paramMapping, kwargsGet, pyTruthy, pyStr]
    decide

/-- Claim C3 witness: the example bag really places -i immediately before 50
inside the optional suffix. -/
theorem claim_C3_witness :
    ∃ l1 l2, addOptionalParams []
        [("min_coupling", KwVal.int 50), ("verbose_results", KwVal.bool true)]
      = l1 ++ ["-i", pyStr (KwVal.int 50)] ++ l2 :=
  (claim_C3 ⟨"cm.jar", "java", []⟩ "log.txt" "git" "authors"
      [("min_coupling", KwVal.int 50), ("verbose_results", KwVal.bool true)]).2.1
    "min_coupling" (KwVal.int 50) "-i" (by decide) (by decide) (by decide)

/-- Claim C5 counterexample: with verbose_results inserted first and
min_coupling second, the code emits the verbose flag last, not at its
insertion position, so the flag order is not the insertion order of the
parameters mapping. -/
theorem claim_C5_counterexample :
    addOptionalParams []
        [("verbose_results", KwVal.bool true), ("min_coupling", KwVal.int 50)]
      = ["-i", "50", "--verbose-results"]
    ∧ specInsertionOrderFlags
        [("verbose_results", KwVal.bool true), ("min_coupling", KwVal.int 50)]
      = ["--verbose-results", "-i", "50"]
    ∧ addOptionalParams []
        [("verbose_results", KwVal.bool true), ("min_coupling", KwVal.int 50)]
      ≠ specInsertionOrderFlags
          [("verbose_results", KwVal.bool true), ("min_coupling", KwVal.int 50)] :=
  ⟨by decide, by decide, by decide⟩

/-- Claim C5 as amended: the value-carrying flags appear in the insertion
order of the parameters mapping, and the bare verbose flag, when truthy, is
always appended after all of them, regardless of its insertion position. -/
theorem claim_C5 (kwargs : List (String × KwVal)) :
    addOptionalParams [] kwargs
      = (kwargs.filterMap paramContrib).flatten
        ++ (if pyTruthy (kwargsGet kwargs "verbose_results")
            then ["--verbose-results"] else []) := by
  rw [addOptionalParams_eq]
  simp

/-- Claim C10: entries whose value is None contribute nothing, exactly as
unrecognized names do: filtering them out of a bag with unique keys leaves
the built suffix unchanged, and a single None-valued entry behaves like a
single unrecognized entry. -/
theorem claim_C10 (kwargs : List (String × KwVal))
    (hnd : (kwargs.map Prod.fst).Nodup) :
    addOptionalParams [] kwargs
      = addOptionalParams [] (kwargs.filter keepValued)
    ∧ (∀ (cmd : List String) (p q : String) (v : KwVal),
        paramMapping q = Option.none → q ≠ "verbose_results" →
        addOptionalParams cmd [(p, KwVal.none)] = cmd
          ∧ addOptionalParams cmd [(q, v)] = cmd) := by
  constructor
  · rw [addOptionalParams_eq, addOptionalParams_eq]
    rw [filterMap_contrib_filter keepValued
      (fun e he => by
        have h1 : e.2 = KwVal.none := by
          unfold keepValued at he
          cases ha : e.2 <;> simp_all
        simp [paramContrib, h1]) kwargs]
    rw [truthy_get_filter_ne_none kwargs hnd]
  · intro cmd p q v hq hqv
    constructor
    · rw [addOptionalParams_eq]
      by_cases hp : p = "verbose_results" <;>
        simp [paramContrib, kwargsGet, hp, pyTruthy]
    · rw [addOptionalParams_eq]
      simp [paramContrib, kwargsGet, hq, hqv, pyTruthy]

/-- Claim C10 witness: a None-valued min_coupling and an unrecognized entry
each leave the command unchanged. -/
theorem claim_C10_witness :
    ((([("min_coupling", KwVal.none)] : List (String × KwVal)).map Prod.fst).Nodup)
    ∧ paramMapping "bogus_name" = Option.none
    ∧ addOptionalParams ["x"] [("min_coupling", KwVal.none)] = ["x"]
    ∧ addOptionalParams ["x"] [("bogus_name", KwVal.int 3)] = ["x"] :=
  ⟨by decide, by decide,
    ((claim_C10 [("min_coupling", KwVal.none)] (by decide)).2 ["x"]
        "min_coupling" "bogus_name" (KwVal.int 3) (by decide) (by decide)).1,
    ((claim_C10 [("min_coupling", KwVal.none)] (by decide)).2 ["x"]
        "min_coupling" "bogus_name" (KwVal.int 3) (by decide) (by decide)).2⟩

/-- Claim C7: log generation rejects a missing repository path with a
validation error and no spawn; otherwise the git client runs with the
repository as its working directory, a zero exit writes the captured standard
output verbatim to the output file and returns that path, and a non-zero exit
yields an execution error carrying the captured standard error. -/
theorem claim_C7 (fs : String → Bool) (proc : SpawnReq → Int × String × String)
    (repoPath outputFile formatType : String) (afterDate : Option String)
    (excludePaths : Option (List String)) :
    (fs repoPath = false →
      generateGitLog fs proc repoPath outputFile formatType afterDate excludePaths
        = ⟨Except.error ⟨ErrKind.validation, "Repository path not found: " ++ repoPath⟩,
            [], []⟩)
    ∧ (fs repoPath = true →
      ∀ code out err,
        proc ⟨buildGitLogCmd formatType afterDate excludePaths, some repoPath, Option.none⟩
            = (code, out, err) →
        (generateGitLog fs proc repoPath outputFile formatType afterDate excludePaths).spawned
            = [⟨buildGitLogCmd formatType afterDate excludePaths, some repoPath, Option.none⟩]
        ∧ (code = 0 →
            (generateGitLog fs proc repoPath outputFile formatType afterDate
                excludePaths).result = Except.ok outputFile
            ∧ (generateGitLog fs proc repoPath outputFile formatType afterDate
                excludePaths).writes = [(outputFile, out)])
        ∧ (code ≠ 0 →
            (generateGitLog fs proc repoPath outputFile formatType afterDate
                excludePaths).result
              = Except.error ⟨ErrKind.execution, "Git log generation failed: " ++ err⟩
            ∧ (generateGitLog fs proc repoPath outputFile formatType afterDate
                excludePaths).writes = [])) := by
  constructor
  · intro h
    simp [generateGitLog, h]
  · intro h code out err hp
    refine ⟨by by_cases hc : code = 0 <;> simp [generateGitLog, h, hp, hc], ?_, ?_⟩
    · intro hc
      constructor <;> simp [generateGitLog, h, hp, hc]
    · intro hc
      constructor <;> simp [generateGitLog, h, hp, hc]

/-- Claim C7 witness: a zero-exit git client run writes its standard output
to the output file and the path is returned. -/
theorem claim_C7_witness :
    (generateGitLog (fun _ => true) (fun _ => (0, "LOG TEXT", ""))
        "/repo" "/tmp/out.log" "git2" Option.none Option.none).result
      = Except.ok "/tmp/out.log"
    ∧ (generateGitLog (fun _ => true) (fun _ => (0, "LOG TEXT", ""))
        "/repo" "/tmp/out.log" "git2" Option.none Option.none).writes
      = [("/tmp/out.log", "LOG TEXT")] :=
  ((claim_C7 (fun _ => true) (fun _ => (0, "LOG TEXT", "")) "/repo" "/tmp/out.log"
      "git2" Option.none Option.none).2 rfl 0 "LOG TEXT" "" rfl).2.1 rfl

/-- The rewritten engine path is always absolute. -/
theorem absolutizeJarPath_isAbs (base p : String) :
    isAbsolutePath (absolutizeJarPath base p) = true := by
  unfold absolutizeJarPath
  by_cases h : isAbsolutePath p = true
  · simp [h]
  · simp [h]
    unfold resolveRel isAbsolutePath
    rw [String.data_append]
    rfl

/-- Rewriting an already absolute engine path changes nothing. -/
theorem absolutizeJarPath_of_abs (base p : String) (h : isAbsolutePath p = true) :
    absolutizeJarPath base p = p := by
  simp [absolutizeJarPath, h]

/-- Claim C8: an absent or malformed configuration document falls back to the
built-in defaults (the target engine artifact path, the java executable, the
three default runtime options); a missing resolved engine path is a
configuration error; and a successful resolution stores an absolute engine
path and is idempotent, so the relative-to-absolute rewrite happens exactly
once. -/
theorem claim_C8 :
    loadConfig Option.none
        = ⟨"../target/code-maat-1.0.5-SNAPSHOT-standalone.jar", "java",
            ["-Xmx4g", "-Djava.awt.headless=true", "-Xss512M"]⟩
    ∧ (∀ (base : String) (fs : String → Bool) (cfg : CodeMaatConfig),
        fs (absolutizeJarPath base cfg.jar_path) = false →
        validateConfig base fs cfg
          = Except.error ⟨ErrKind.configuration,
              "Code Maat JAR not found at: " ++ absolutizeJarPath base cfg.jar_path⟩)
    ∧ (∀ (base : String) (fs : String → Bool) (cfg cfg2 : CodeMaatConfig),
        validateConfig base fs cfg = Except.ok cfg2 →
        isAbsolutePath cfg2.jar_path = true
          ∧ validateConfig base fs cfg2 = Except.ok cfg2) := by
  refine ⟨rfl, ?_, ?_⟩
  · intro base fs cfg h
    simp [validateConfig, h]
  · intro base fs cfg cfg2 h
    unfold validateConfig at h
    by_cases hf : fs (absolutizeJarPath base cfg.jar_path) = true
    · rw [if_pos hf] at h
      have hc : cfg2 = { cfg with jar_path := absolutizeJarPath base cfg.jar_path } :=
        (Except.ok.injEq _ _).mp h.symm
      have habs : isAbsolutePath cfg2.jar_path = true := by
        rw [hc]
        exact absolutizeJarPath_isAbs base cfg.jar_path
      refine ⟨habs, ?_⟩
      unfold validateConfig
      rw [absolutizeJarPath_of_abs base cfg2.jar_path habs]
      have hf2 : fs cfg2.jar_path = true := by
        rw [hc]
        exact hf
      rw [if_pos hf2]
    · rw [if_neg hf] at h
      exact absurd h (by simp)

/-- Claim C8 witness: a relative engine path is resolved against the base
directory, the resolved configuration is absolute and validates unchanged. -/
theorem claim_C8_witness :
    validateConfig "/srv/mcp-server" (fun p => p = "/srv/target/cm.jar")
        ⟨"../target/cm.jar", "java", []⟩
      = Except.ok ⟨"/srv/target/cm.jar", "java", []⟩
    ∧ isAbsolutePath (("/srv/target/cm.jar" : String)) = true
    ∧ validateConfig "/srv/mcp-server" (fun p => p = "/srv/target/cm.jar")
        ⟨"/srv/target/cm.jar", "java", []⟩
      = Except.ok ⟨"/srv/target/cm.jar", "java", []⟩ := by
  have h := claim_C8.2.2 "/srv/mcp-server" (fun p => p = "/srv/target/cm.jar")
    ⟨"../target/cm.jar", "java", []⟩ ⟨"/srv/target/cm.jar", "java", []⟩ (by decide)
  exact ⟨by decide, h.1, h.2⟩

end CodeMaat
